import Mathlib

/-!
Verification of the astro_hack orbital-debris visualization core.

The definitions below are a shallow embedding of the TypeScript source:

* `src/project/src/components/DebrisSimulation.tsx` — record classification
  (`parseTLEData`), the filter/slice selection stage, the fallback position
  propagation (`calculatePosition`), the trail push/filter logic in
  `sketch.draw`, the hover resolution loop, and the primary projection model
  (`generatePredictionData`).
* `src/project/src/components/MLAnalysis.tsx` — the second classifier
  (`fetchTLEData`) and the second projection variant
  (`generatePredictionData`).

JavaScript numerics are modelled over `ℚ` where the computations are exact
rational arithmetic (rounding, powers of decimal growth rates, squared pixel
distances) and over `ℝ` where the source calls transcendental functions
(`Math.sin`, `Math.PI`).  `Math.round` is `⌊x + 1/2⌋` (JS rounds half toward
+∞); the JS `%` operator truncates the quotient toward zero.
-/

/-- JS `Math.round`: round half toward +∞, i.e. `⌊x + 1/2⌋`. -/
def jsRound (q : ℚ) : ℤ := ⌊q + 1/2⌋

/-- JS truncation toward zero, used by the `%` operator. -/
noncomputable def jsTrunc (x : ℝ) : ℤ := if 0 ≤ x then ⌊x⌋ else ⌈x⌉

/-- JS remainder `a % b`: `a - b * trunc (a / b)` (sign follows the dividend). -/
noncomputable def jsMod (a b : ℝ) : ℝ := a - b * jsTrunc (a / b)

/-- The category strings assigned anywhere in the two classifiers:
`'Debris'`, `'Satellite'`, `'Rocket Body'`, `'Constellation'`, `'Weather'`,
`'Earth Observation'`, `'Unknown'`. -/
inductive Category where
  | Debris
  | Satellite
  | RocketBody
  | Constellation
  | Weather
  | EarthObservation
  | Unknown
deriving DecidableEq, Repr

/-- `name.includes(pat)` on JS strings, as list-of-character infix. -/
def includes (name pat : List Char) : Prop := pat <:+: name

instance (name pat : List Char) : Decidable (includes name pat) :=
  List.decidableInfix pat name

/-- Category assignment of `parseTLEData` in `DebrisSimulation.tsx`
(lines 96–111): an if/else-if chain over `name.includes` tests, starting
from `'Unknown'`. -/
def classifyDS (name : List Char) : Category :=
  if includes name "DEB".toList ∨ includes name "DEBRIS".toList then .Debris
  else if includes name "R/B".toList ∨ includes name "ROCKET".toList then .RocketBody
  else if includes name "COSMOS".toList ∨ includes name "SATELLITE".toList then .Satellite
  else if includes name "STARLINK".toList then .Satellite
  else if includes name "ONEWEB".toList then .Satellite
  else .Unknown

/-- Category assignment of `fetchTLEData` in `MLAnalysis.tsx`
(lines 83–96): same chain shape, but `STARLINK` maps to `'Constellation'`
and there are weather and earth-observation rules. -/
def classifyML (name : List Char) : Category :=
  if includes name "DEB".toList ∨ includes name "DEBRIS".toList then .Debris
  else if includes name "R/B".toList ∨ includes name "ROCKET".toList then .RocketBody
  else if includes name "COSMOS".toList ∨ includes name "SATELLITE".toList then .Satellite
  else if includes name "STARLINK".toList then .Constellation
  else if includes name "WEATHER".toList ∨ includes name "NOAA".toList ∨
          includes name "GOES".toList then .Weather
  else if includes name "LANDSAT".toList ∨ includes name "TERRA".toList ∨
          includes name "AQUA".toList then .EarthObservation
  else .Unknown

/-- Some classification rule of `parseTLEData` matches the display name. -/
def dsRuleMatches (name : List Char) : Prop :=
  includes name "DEB".toList ∨ includes name "DEBRIS".toList ∨
  includes name "R/B".toList ∨ includes name "ROCKET".toList ∨
  includes name "COSMOS".toList ∨ includes name "SATELLITE".toList ∨
  includes name "STARLINK".toList ∨ includes name "ONEWEB".toList

/-- Some classification rule of `fetchTLEData` (MLAnalysis) matches. -/
def mlRuleMatches (name : List Char) : Prop :=
  includes name "DEB".toList ∨ includes name "DEBRIS".toList ∨
  includes name "R/B".toList ∨ includes name "ROCKET".toList ∨
  includes name "COSMOS".toList ∨ includes name "SATELLITE".toList ∨
  includes name "STARLINK".toList ∨
  includes name "WEATHER".toList ∨ includes name "NOAA".toList ∨
  includes name "GOES".toList ∨
  includes name "LANDSAT".toList ∨ includes name "TERRA".toList ∨
  includes name "AQUA".toList

/-- Risk levels in severity order. -/
inductive Risk where
  | Low
  | Medium
  | High
  | Critical
deriving DecidableEq, Repr

/-- Numeric severity rank of a risk level (Low < Medium < High < Critical). -/
def severity : Risk → ℕ
  | .Low => 0
  | .Medium => 1
  | .High => 2
  | .Critical => 3

namespace DebrisSim

/-- One entry of the primary projection (`PredictionData` in
`DebrisSimulation.tsx`). -/
structure PredictionData where
  year : ℕ
  totalDebris : ℤ
  largeDebris : ℤ
  smallDebris : ℤ
  collisionEvents : ℤ
  riskLevel : Risk
deriving DecidableEq, Repr

/-- The growth-rate overwrite chain of `generatePredictionData`
(lines 187–191): `1.05`, then overwritten by `1.08` for `year ≥ 2007`,
`1.12` for `year ≥ 2009`, `1.15` for `year ≥ 2020`, `1.18` for
`year ≥ 2025`. -/
def growthRate (year : ℕ) : ℚ :=
  let g : ℚ := 1.05
  let g : ℚ := if 2007 ≤ year then 1.08 else g
  let g : ℚ := if 2009 ≤ year then 1.12 else g
  let g : ℚ := if 2020 ≤ year then 1.15 else g
  if 2025 ≤ year then 1.18 else g

/-- `Math.round(20 * Math.pow(growthRate, yearOffset))` (line 193). -/
def totalDebrisAt (year : ℕ) : ℤ :=
  jsRound (20 * growthRate year ^ (year - 2000))

/-- The risk-level overwrite chain (lines 201–204). -/
def riskLevel (totalDebris : ℤ) : Risk :=
  let r : Risk := .Low
  let r : Risk := if 500 < totalDebris then .Medium else r
  let r : Risk := if 1500 < totalDebris then .High else r
  if 3000 < totalDebris then .Critical else r

/-- Loop body of `generatePredictionData` for one `year` (lines 183–213). -/
def predictionPoint (year : ℕ) : PredictionData :=
  let totalDebris := totalDebrisAt year
  let largeDebris := jsRound ((totalDebris : ℚ) * 0.3)
  let smallDebris := totalDebris - largeDebris
  let collisionEvents :=
    max 0 (jsRound ((totalDebris : ℚ) / 1000 * (if 2009 ≤ year then 2 else 1)))
  { year := year
    totalDebris := totalDebris
    largeDebris := largeDebris
    smallDebris := smallDebris
    collisionEvents := collisionEvents
    riskLevel := riskLevel totalDebris }

/-- `generatePredictionData` of `DebrisSimulation.tsx`: one point per year
from 2000 to 2028 inclusive. -/
def generatePredictionData : List PredictionData :=
  (List.range 29).map (fun k => predictionPoint (2000 + k))

/-- The regime table exactly as the spec words it: 1.05 before 2007, 1.08
for 2007–2008, 1.12 for 2009–2019, 1.15 for 2020–2024, 1.18 from 2025 on. -/
def specRate (year : ℕ) : ℚ :=
  if year < 2007 then 1.05
  else if year ≤ 2008 then 1.08
  else if year ≤ 2019 then 1.12
  else if year ≤ 2024 then 1.15
  else 1.18

end DebrisSim

namespace MLAnalysis

/-- One entry of the second projection variant (`PredictionData` in
`MLAnalysis.tsx`). -/
structure PredictionData where
  year : ℕ
  totalObjects : ℤ
  debris : ℤ
  activeSatellites : ℤ
  rocketBodies : ℤ
  collisionRisk : ℚ
deriving DecidableEq, Repr

/-- Loop body of `generatePredictionData` in `MLAnalysis.tsx`
(lines 170–194) for a year offset `k` from the 2024 base year, given the
live observed counts. -/
def predictionPoint (currentSatellites currentDebris currentRockets : ℕ)
    (k : ℕ) : PredictionData :=
  let satelliteGrowthRate : ℚ := 1.15
  let debrisGrowthRate : ℚ := 1.08
  let rocketGrowthRate : ℚ := 1.12
  let densityFactor : ℚ := 1.1 ^ k
  let collisionRisk : ℚ := min 95 (15 + k * 3 + densityFactor * 2)
  let satellites := jsRound (currentSatellites * satelliteGrowthRate ^ k)
  let debris := jsRound (currentDebris * debrisGrowthRate ^ k)
  let rocketBodies := jsRound (currentRockets * rocketGrowthRate ^ k)
  { year := 2024 + k
    totalObjects := satellites + debris + rocketBodies
    debris := debris
    activeSatellites := satellites
    rocketBodies := rocketBodies
    collisionRisk := collisionRisk }

/-- `generatePredictionData` of `MLAnalysis.tsx`: years 2024 to 2034
inclusive (offsets 0 to 10). -/
def generatePredictionData (currentSatellites currentDebris currentRockets : ℕ) :
    List PredictionData :=
  (List.range 11).map (predictionPoint currentSatellites currentDebris currentRockets)

/-- The second projection variant exactly as the spec words it:
`activeSatellites = round(currentSatellites × 1.15^k)`,
`debris = round(currentDebris × 1.08^k)`,
`rocketBodies = round(currentRockets × 1.12^k)`, `totalObjects` their sum,
`collisionRisk = min(95, 15 + 3×k + 2×1.1^k)`. -/
def specPoint (currentSatellites currentDebris currentRockets : ℕ)
    (k : ℕ) : PredictionData :=
  let activeSatellites := jsRound (currentSatellites * (1.15 : ℚ) ^ k)
  let debris := jsRound (currentDebris * (1.08 : ℚ) ^ k)
  let rocketBodies := jsRound (currentRockets * (1.12 : ℚ) ^ k)
  { year := 2024 + k
    totalObjects := activeSatellites + debris + rocketBodies
    debris := debris
    activeSatellites := activeSatellites
    rocketBodies := rocketBodies
    collisionRisk := min 95 (15 + 3 * k + 2 * (1.1 : ℚ) ^ k) }

end MLAnalysis

/-- The fields of a `DebrisObject` (DebrisSimulation.tsx) that the
classification, selection, trail and hover logic read: the numeric catalog
id, the category, and the current screen/geodetic position. -/
structure DebrisObject where
  noradId : ℕ
  category : Category
  x : ℚ
  y : ℚ
  lat : ℚ
  lon : ℚ
deriving DecidableEq, Repr

/-- Final selection stage of `parseTLEData` (lines 133–137): take the first
12 debris objects, the first 10 satellites and the first 6 rocket bodies, in
that order, and cap the concatenation at 25. -/
def selectObjects (objects : List DebrisObject) : List DebrisObject :=
  let debris := (objects.filter (fun obj => obj.category = .Debris)).take 12
  let satellites := (objects.filter (fun obj => obj.category = .Satellite)).take 10
  let rocketBodies := (objects.filter (fun obj => obj.category = .RocketBody)).take 6
  (debris ++ satellites ++ rocketBodies).take 25

/-- Squared screen distance between the pointer and an object.  The source
compares `p.dist(mouseX, mouseY, x, y) < 20`; over nonnegative reals this is
equivalent to the exact rational comparison `dist² < 400`, which keeps the
embedding computable. -/
def dist2 (mx my x y : ℚ) : ℚ := (mx - x) ^ 2 + (my - y) ^ 2

/-- The object is within the 20-pixel pick radius of the pointer. -/
def inPickRadius (mx my : ℚ) (obj : DebrisObject) : Bool :=
  dist2 mx my obj.x obj.y < 400

/-- The hover loop of `sketch.draw` (lines 503–521): iterate over all
objects and assign `hoveredObject` whenever the pointer is within 20 px, so
a later match overwrites an earlier one. -/
def hoverResolve (mx my : ℚ) (objects : List DebrisObject) : Option DebrisObject :=
  objects.foldl
    (fun hoveredObject obj =>
      if inPickRadius mx my obj then some obj else hoveredObject)
    none

/-- The Hover Resolver exactly as the spec words it: the first object in
iteration order within the pick radius, none if no object qualifies. -/
def specHoverFirst (mx my : ℚ) (objects : List DebrisObject) : Option DebrisObject :=
  objects.find? (inPickRadius mx my)

/-- One trail sample (`positions` entry): screen coordinates, geodetic
coordinates and a millisecond timestamp. -/
structure PositionSample where
  x : ℚ
  y : ℚ
  lat : ℚ
  lon : ℚ
  timestamp : ℤ
deriving DecidableEq, Repr

/-- `prune`: `positions.filter(pos => pos.timestamp > now - 90000)`
(lines 478–479). -/
def prune (now : ℤ) (positions : List PositionSample) : List PositionSample :=
  positions.filter (fun pos => now - 90000 < pos.timestamp)

/-- One tick of the trail logic in `sketch.draw` (lines 471–484): push the
sample taken at `now` (its timestamp is `now.getTime()`), then prune against
the same `now`. -/
def trailTick (positions : List PositionSample) (now : ℤ) (x y lat lon : ℚ) :
    List PositionSample :=
  prune now (positions ++ [{ x := x, y := y, lat := lat, lon := lon, timestamp := now }])

/-- Strictly timestamp-ascending, the Trail invariant the spec states. -/
def strictAscending (positions : List PositionSample) : Prop :=
  positions.Pairwise (fun a b => a.timestamp < b.timestamp)

instance (positions : List PositionSample) : Decidable (strictAscending positions) :=
  List.instDecidablePairwise positions

/-- `speedMultiplier` of `calculatePosition` (lines 363–372): starts at 1,
overwritten to 1.3 for `'Debris'`, 0.7 for `'Satellite'`. -/
def speedMultiplier (category : Category) : ℝ :=
  if category = .Debris then 1.3
  else if category = .Satellite then 0.7
  else 1

/-- `inclinationFactor` of `calculatePosition`: 1.8 for `'Debris'`, 0.6 for
`'Satellite'`, otherwise 1. -/
def inclinationFactor (category : Category) : ℝ :=
  if category = .Debris then 1.8
  else if category = .Satellite then 0.6
  else 1

/-- The fallback branch of `calculatePosition` (lines 356–377).  The input
`timeMs` is `date.getTime()` in milliseconds; the source sets
`time = date.getTime() / 1000`, `baseSpeed = 0.001`,
`phase = (noradId % 360) * (π / 180)`, then
`lat = sin(time * baseSpeed * speedMultiplier + phase) * 50 * inclinationFactor`
and
`lon = ((time * baseSpeed * speedMultiplier * 2.5 + phase) % (2π)) * (180/π) - 180`. -/
noncomputable def calculatePositionFallback (noradId : ℕ) (category : Category)
    (timeMs : ℝ) : ℝ × ℝ :=
  let time := timeMs / 1000
  let baseSpeed : ℝ := 0.001
  let phase : ℝ := (noradId % 360 : ℕ) * (Real.pi / 180)
  let sm := speedMultiplier category
  let incl := inclinationFactor category
  let lat := Real.sin (time * baseSpeed * sm + phase) * 50 * incl
  let lon := jsMod (time * baseSpeed * sm * 2.5 + phase) (2 * Real.pi) * (180 / Real.pi) - 180
  (lat, lon)

/-- The fallback propagation exactly as the spec words it:
`t = timestamp_seconds × 0.001 × speedMultiplier`,
`lat = sin(t + phase) × 50 × inclinationFactor`,
`lon = ((t × 2.5 + phase) mod 2π) × (180/π) − 180`, with
`phase = (catalog_id mod 360) × (π/180)` and the per-category
(speedMultiplier, inclinationFactor) table Debris → (1.3, 1.8),
Satellite → (0.7, 0.6), other → (1.0, 1.0). -/
noncomputable def specFallback (catalogId : ℕ) (category : Category)
    (timestampSeconds : ℝ) : ℝ × ℝ :=
  let phase : ℝ := (catalogId % 360 : ℕ) * (Real.pi / 180)
  let sm : ℝ := if category = .Debris then 1.3 else if category = .Satellite then 0.7 else 1
  let incl : ℝ := if category = .Debris then 1.8 else if category = .Satellite then 0.6 else 1
  let t := timestampSeconds * 0.001 * sm
  let lat := Real.sin (t + phase) * 50 * incl
  let lon := jsMod (t * 2.5 + phase) (2 * Real.pi) * (180 / Real.pi) - 180
  (lat, lon)

/-! ### Helper lemmas -/

lemma growthRate_eq_specRate (year : ℕ) :
    DebrisSim.growthRate year = DebrisSim.specRate year := by
  unfold DebrisSim.growthRate DebrisSim.specRate
  split_ifs <;> first | rfl | omega

lemma totalDebrisAt_mono_aux :
    ∀ k < 28, DebrisSim.totalDebrisAt (2000 + k) ≤ DebrisSim.totalDebrisAt (2001 + k) := by
  intro k hk
  interval_cases k <;>
    norm_num [DebrisSim.totalDebrisAt, DebrisSim.growthRate, jsRound]

/-! ### Claims -/

/-- C3: the primary projection model assigns riskLevel Low iff
`total ≤ 500`, Medium iff `500 < total ≤ 1500`, High iff
`1500 < total ≤ 3000`, Critical iff `total > 3000`; in particular 500 → Low,
501 → Medium, 1500 → Medium, 1501 → High, 3000 → High, 3001 → Critical. -/
theorem riskLevel_thresholds :
    (∀ total : ℤ,
      (DebrisSim.riskLevel total = .Low ↔ total ≤ 500) ∧
      (DebrisSim.riskLevel total = .Medium ↔ 500 < total ∧ total ≤ 1500) ∧
      (DebrisSim.riskLevel total = .High ↔ 1500 < total ∧ total ≤ 3000) ∧
      (DebrisSim.riskLevel total = .Critical ↔ 3000 < total)) ∧
    DebrisSim.riskLevel 500 = .Low ∧ DebrisSim.riskLevel 501 = .Medium ∧
    DebrisSim.riskLevel 1500 = .Medium ∧ DebrisSim.riskLevel 1501 = .High ∧
    DebrisSim.riskLevel 3000 = .High ∧ DebrisSim.riskLevel 3001 = .Critical := by
  refine ⟨fun total => ?_, by decide, by decide, by decide, by decide, by decide, by decide⟩
  unfold DebrisSim.riskLevel
  split_ifs <;> refine ⟨?_, ?_, ?_, ?_⟩ <;> simp <;> omega

/-- C2: each point of the primary projection satisfies
`totalDebris = round(20 × rate(year)^(year − 2000))` with the regime-table
rate, `largeDebris = round(totalDebris × 0.3)`,
`smallDebris = totalDebris − largeDebris`, and
`collisionEvents = max(0, round((totalDebris/1000) × (2 if year ≥ 2009
else 1)))`; in particular the 2001 point is (21, 6, 15, 0). -/
theorem generatePredictionData_formula :
    (∀ p ∈ DebrisSim.generatePredictionData,
      2000 ≤ p.year ∧ p.year ≤ 2028 ∧
      p.totalDebris = jsRound (20 * DebrisSim.specRate p.year ^ (p.year - 2000)) ∧
      p.largeDebris = jsRound ((p.totalDebris : ℚ) * 0.3) ∧
      p.smallDebris = p.totalDebris - p.largeDebris ∧
      p.collisionEvents =
        max 0 (jsRound ((p.totalDebris : ℚ) / 1000 * (if 2009 ≤ p.year then 2 else 1)))) ∧
    (DebrisSim.predictionPoint 2001).totalDebris = 21 ∧
    (DebrisSim.predictionPoint 2001).largeDebris = 6 ∧
    (DebrisSim.predictionPoint 2001).smallDebris = 15 ∧
    (DebrisSim.predictionPoint 2001).collisionEvents = 0 := by
  refine ⟨?_,
    by norm_num [DebrisSim.predictionPoint, DebrisSim.totalDebrisAt, DebrisSim.growthRate, jsRound],
    by norm_num [DebrisSim.predictionPoint, DebrisSim.totalDebrisAt, DebrisSim.growthRate, jsRound],
    by norm_num [DebrisSim.predictionPoint, DebrisSim.totalDebrisAt, DebrisSim.growthRate, jsRound],
    by norm_num [DebrisSim.predictionPoint, DebrisSim.totalDebrisAt, DebrisSim.growthRate, jsRound]⟩
  intro p hp
  simp only [DebrisSim.generatePredictionData, List.mem_map, List.mem_range] at hp
  obtain ⟨k, hk, rfl⟩ := hp
  refine ⟨?_, ?_, ?_, rfl, rfl, rfl⟩
  · show 2000 ≤ 2000 + k
    omega
  · show 2000 + k ≤ 2028
    omega
  · show DebrisSim.totalDebrisAt (2000 + k) =
      jsRound (20 * DebrisSim.specRate (2000 + k) ^ (2000 + k - 2000))
    rw [DebrisSim.totalDebrisAt, growthRate_eq_specRate]

/-- Witness for C2 at the 2001 entry of the projection. -/
theorem generatePredictionData_formula_witness :
    2000 ≤ (DebrisSim.predictionPoint 2001).year ∧
    (DebrisSim.predictionPoint 2001).year ≤ 2028 ∧
    (DebrisSim.predictionPoint 2001).totalDebris =
      jsRound (20 * DebrisSim.specRate (DebrisSim.predictionPoint 2001).year ^
        ((DebrisSim.predictionPoint 2001).year - 2000)) ∧
    (DebrisSim.predictionPoint 2001).largeDebris =
      jsRound (((DebrisSim.predictionPoint 2001).totalDebris : ℚ) * 0.3) ∧
    (DebrisSim.predictionPoint 2001).smallDebris =
      (DebrisSim.predictionPoint 2001).totalDebris -
        (DebrisSim.predictionPoint 2001).largeDebris ∧
    (DebrisSim.predictionPoint 2001).collisionEvents =
      max 0 (jsRound (((DebrisSim.predictionPoint 2001).totalDebris : ℚ) / 1000 *
        (if 2009 ≤ (DebrisSim.predictionPoint 2001).year then 2 else 1))) :=
  generatePredictionData_formula.1 (DebrisSim.predictionPoint 2001)
    (by simp only [DebrisSim.generatePredictionData, List.mem_map, List.mem_range]
        exact ⟨1, by omega, rfl⟩)

/-- C7: `totalDebris` is non-decreasing from each projected year to the
next, and `riskLevel` is monotone in `totalDebris` under the severity order
Low < Medium < High < Critical. -/
theorem projection_monotone :
    (∀ year : ℕ, 2000 ≤ year → year ≤ 2027 →
      DebrisSim.totalDebrisAt year ≤ DebrisSim.totalDebrisAt (year + 1)) ∧
    (∀ t1 t2 : ℤ, t1 ≤ t2 →
      severity (DebrisSim.riskLevel t1) ≤ severity (DebrisSim.riskLevel t2)) := by
  constructor
  · intro year h1 h2
    have h := totalDebrisAt_mono_aux (year - 2000) (by omega)
    have e1 : 2000 + (year - 2000) = year := by omega
    have e2 : 2001 + (year - 2000) = year + 1 := by omega
    rw [e1, e2] at h
    exact h
  · intro t1 t2 h
    unfold DebrisSim.riskLevel
    split_ifs <;> simp [severity] <;> omega

/-- Witness for C7 at year 2000 and totals 400 ≤ 4000. -/
theorem projection_monotone_witness :
    DebrisSim.totalDebrisAt 2000 ≤ DebrisSim.totalDebrisAt 2001 ∧
    severity (DebrisSim.riskLevel 400) ≤ severity (DebrisSim.riskLevel 4000) :=
  ⟨projection_monotone.1 2000 (by decide) (by decide),
   projection_monotone.2 400 4000 (by decide)⟩

lemma mlPoint_eq_specPoint (cs cd cr k : ℕ) :
    MLAnalysis.predictionPoint cs cd cr k = MLAnalysis.specPoint cs cd cr k := by
  simp only [MLAnalysis.predictionPoint, MLAnalysis.specPoint, MLAnalysis.PredictionData.mk.injEq]
  refine ⟨trivial, trivial, trivial, trivial, trivial, ?_⟩
  congr 1
  ring

/-- C8: entry `k` (0 ≤ k ≤ 10) of the second projection variant is exactly
`activeSatellites = round(currentSatellites × 1.15^k)`,
`debris = round(currentDebris × 1.08^k)`,
`rocketBodies = round(currentRockets × 1.12^k)`, `totalObjects` their sum,
and `collisionRisk = min(95, 15 + 3k + 2×1.1^k)` — a pure function of the
observed counts. -/
theorem mlProjection_formula :
    ∀ (currentSatellites currentDebris currentRockets k : ℕ), k ≤ 10 →
      (MLAnalysis.generatePredictionData currentSatellites currentDebris currentRockets)[k]? =
        some (MLAnalysis.specPoint currentSatellites currentDebris currentRockets k) := by
  intro cs cd cr k hk
  unfold MLAnalysis.generatePredictionData
  have hk11 : k < 11 := by omega
  simp [List.getElem?_map, List.getElem?_range, hk11, mlPoint_eq_specPoint]

/-- Witness for C8 at observed counts (100, 50, 20) and offset 10. -/
theorem mlProjection_formula_witness :
    (MLAnalysis.generatePredictionData 100 50 20)[10]? =
      some (MLAnalysis.specPoint 100 50 20 10) :=
  mlProjection_formula 100 50 20 10 (by omega)

/-- C6 counterexample: the MLAnalysis classifier, cited by the claim,
assigns `'Constellation'` to a STARLINK name — a category outside the
claimed closed set {Debris, Satellite, RocketBody, Unknown}. -/
theorem classification_closed_set_counterexample :
    classifyML "STARLINK-1".toList = Category.Constellation ∧
    classifyML "STARLINK-1".toList ∉
      ([Category.Debris, Category.Satellite, Category.RocketBody, Category.Unknown] :
        List Category) := by
  decide

/-- C6 (amended): the DebrisSimulation classifier only produces categories
in {Debris, Satellite, RocketBody, Unknown}, with Unknown exactly when no
rule matches; the MLAnalysis classifier may additionally produce
Constellation, Weather or EarthObservation, and likewise assigns Unknown
exactly when none of its rules match. -/
theorem classification_categories :
    ∀ name : List Char,
      classifyDS name ∈
        ([Category.Debris, Category.Satellite, Category.RocketBody, Category.Unknown] :
          List Category) ∧
      (classifyDS name = Category.Unknown ↔ ¬ dsRuleMatches name) ∧
      classifyML name ∈
        ([Category.Debris, Category.Satellite, Category.RocketBody, Category.Constellation,
          Category.Weather, Category.EarthObservation, Category.Unknown] : List Category) ∧
      (classifyML name = Category.Unknown ↔ ¬ mlRuleMatches name) := by
  intro name
  refine ⟨?_, ?_, ?_, ?_⟩
  · unfold classifyDS
    split_ifs <;> simp
  · unfold classifyDS dsRuleMatches
    split_ifs <;> simp_all <;> tauto
  · unfold classifyML
    split_ifs <;> simp
  · unfold classifyML mlRuleMatches
    split_ifs <;> simp_all <;> tauto

lemma take_append_take_of_le (A B C : List DebrisObject)
    (hA : A.length ≤ 12) (hB : B.length ≤ 10) :
    (A ++ B ++ C).take 25 = A ++ B ++ C.take (25 - (A.length + B.length)) := by
  rw [List.take_append_eq_append_take, List.take_append_eq_append_take,
    List.take_of_length_le (by omega), List.take_of_length_le (by omega),
    List.length_append]

lemma mem_take_filter {p : DebrisObject → Bool} {l : List DebrisObject} {n : ℕ} :
    ∀ o ∈ (l.filter p).take n, p o = true :=
  fun _ ho => (List.mem_filter.mp (List.take_subset _ _ ho)).2

/-- C10: the selection stage returns at most 25 objects, structured as at
most 12 debris followed by at most 10 satellites followed by at most 6
rocket bodies, and never an object of any other category. -/
theorem selectObjects_bounds :
    ∀ objects : List DebrisObject,
      (selectObjects objects).length ≤ 25 ∧
      (∃ d s b, selectObjects objects = d ++ s ++ b ∧
        d.length ≤ 12 ∧ s.length ≤ 10 ∧ b.length ≤ 6 ∧
        (∀ o ∈ d, o.category = Category.Debris) ∧
        (∀ o ∈ s, o.category = Category.Satellite) ∧
        (∀ o ∈ b, o.category = Category.RocketBody)) ∧
      (∀ o ∈ selectObjects objects,
        o.category = Category.Debris ∨ o.category = Category.Satellite ∨
          o.category = Category.RocketBody) := by
  intro objects
  have hAlen : ((objects.filter fun obj => obj.category = Category.Debris).take 12).length ≤ 12 :=
    List.length_take_le _ _
  have hBlen :
      ((objects.filter fun obj => obj.category = Category.Satellite).take 10).length ≤ 10 :=
    List.length_take_le _ _
  have hClen :
      ((objects.filter fun obj => obj.category = Category.RocketBody).take 6).length ≤ 6 :=
    List.length_take_le _ _
  have hsel : selectObjects objects =
      (objects.filter fun obj => obj.category = Category.Debris).take 12 ++
      (objects.filter fun obj => obj.category = Category.Satellite).take 10 ++
      ((objects.filter fun obj => obj.category = Category.RocketBody).take 6).take
        (25 - (((objects.filter fun obj => obj.category = Category.Debris).take 12).length +
          ((objects.filter fun obj => obj.category = Category.Satellite).take 10).length)) :=
    take_append_take_of_le _ _ _ hAlen hBlen
  have hAmem : ∀ o ∈ (objects.filter fun obj => obj.category = Category.Debris).take 12,
      o.category = Category.Debris := by
    intro o ho
    simpa using mem_take_filter o ho
  have hBmem : ∀ o ∈ (objects.filter fun obj => obj.category = Category.Satellite).take 10,
      o.category = Category.Satellite := by
    intro o ho
    simpa using mem_take_filter o ho
  have hCmem : ∀ o ∈ ((objects.filter fun obj => obj.category = Category.RocketBody).take 6).take
      (25 - (((objects.filter fun obj => obj.category = Category.Debris).take 12).length +
        ((objects.filter fun obj => obj.category = Category.Satellite).take 10).length)),
      o.category = Category.RocketBody := by
    intro o ho
    simpa using mem_take_filter o (List.take_subset _ _ ho)
  refine ⟨?_, ⟨_, _, _, hsel, hAlen, hBlen, ?_, hAmem, hBmem, hCmem⟩, ?_⟩
  · exact List.length_take_le _ _
  · exact le_trans (List.take_sublist _ _).length_le hClen
  · intro o ho
    rw [hsel] at ho
    rcases List.mem_append.mp ho with h | h
    · rcases List.mem_append.mp h with h2 | h2
      · exact Or.inl (hAmem o h2)
      · exact Or.inr (Or.inl (hBmem o h2))
    · exact Or.inr (Or.inr (hCmem o h))

/-- Witness for C10 at a concrete object list with one object of each
category (the Unknown one is dropped). -/
theorem selectObjects_bounds_witness :
    ((selectObjects [⟨1, Category.Unknown, 0, 0, 0, 0⟩, ⟨2, Category.Debris, 0, 0, 0, 0⟩]).length ≤ 25 ∧
      (∃ d s b,
        selectObjects [⟨1, Category.Unknown, 0, 0, 0, 0⟩, ⟨2, Category.Debris, 0, 0, 0, 0⟩] =
          d ++ s ++ b ∧
        d.length ≤ 12 ∧ s.length ≤ 10 ∧ b.length ≤ 6 ∧
        (∀ o ∈ d, o.category = Category.Debris) ∧
        (∀ o ∈ s, o.category = Category.Satellite) ∧
        (∀ o ∈ b, o.category = Category.RocketBody)) ∧
      (∀ o ∈ selectObjects [⟨1, Category.Unknown, 0, 0, 0, 0⟩, ⟨2, Category.Debris, 0, 0, 0, 0⟩],
        o.category = Category.Debris ∨ o.category = Category.Satellite ∨
          o.category = Category.RocketBody)) :=
  selectObjects_bounds [⟨1, Category.Unknown, 0, 0, 0, 0⟩, ⟨2, Category.Debris, 0, 0, 0, 0⟩]

/-- C5 counterexample: two consecutive ticks at the same clock value `now = 0`
satisfy the claim's hypothesis (the appended timestamp 0 is ≥ the last
appended timestamp 0), yet the resulting Trail holds two samples with equal
timestamps, so it is not strictly timestamp-ascending. -/
theorem trail_strict_ascending_counterexample :
    (0 : ℤ) ≤ 0 ∧
    ¬ strictAscending (trailTick (trailTick [] 0 0 0 0 0) 0 0 0 0 0) := by
  exact ⟨le_refl 0, by decide⟩

/-- C5 (amended): after append-then-prune, every retained sample is within
90 000 ms of `now`; and the Trail stays strictly timestamp-ascending
provided every previously retained timestamp is strictly below the appended
one (timestamp strictly greater than the last, not merely ≥). -/
theorem trailTick_window_and_order :
    ∀ (positions : List PositionSample) (now : ℤ) (x y lat lon : ℚ),
      (∀ s ∈ trailTick positions now x y lat lon, now - s.timestamp ≤ 90000) ∧
      (strictAscending positions → (∀ s ∈ positions, s.timestamp < now) →
        strictAscending (trailTick positions now x y lat lon)) := by
  intro positions now x y lat lon
  constructor
  · intro s hs
    have h := (List.mem_filter.mp hs).2
    simp only [decide_eq_true_eq] at h
    omega
  · intro hasc hlt
    have hbig : (positions ++
        [({ x := x, y := y, lat := lat, lon := lon, timestamp := now } :
          PositionSample)]).Pairwise
        (fun a b => a.timestamp < b.timestamp) := by
      rw [List.pairwise_append]
      refine ⟨hasc, List.pairwise_singleton _ _, ?_⟩
      intro a ha b hb
      rw [List.mem_singleton] at hb
      subst hb
      exact hlt a ha
    exact hbig.sublist (List.filter_sublist _)

/-- Witness for C5 at a one-sample trail with timestamp −1 ticked at
`now = 0`. -/
theorem trailTick_window_and_order_witness :
    (0 : ℤ) - ({ x := 0, y := 0, lat := 0, lon := 0, timestamp := 0 } :
      PositionSample).timestamp ≤ 90000 ∧
    strictAscending
      (trailTick [{ x := 0, y := 0, lat := 0, lon := 0, timestamp := -1 }] 0 0 0 0 0) :=
  ⟨(trailTick_window_and_order
      [{ x := 0, y := 0, lat := 0, lon := 0, timestamp := -1 }] 0 0 0 0 0).1
      { x := 0, y := 0, lat := 0, lon := 0, timestamp := 0 }
      (by norm_num [trailTick, prune]),
   (trailTick_window_and_order
      [{ x := 0, y := 0, lat := 0, lon := 0, timestamp := -1 }] 0 0 0 0 0).2
      (by simp [strictAscending]) (by norm_num)⟩

lemma hoverResolve_foldl (mx my : ℚ) :
    ∀ (objects : List DebrisObject) (init : Option DebrisObject),
      objects.foldl (fun hovered obj => if inPickRadius mx my obj then some obj else hovered)
        init =
        match objects.reverse.find? (inPickRadius mx my) with
        | some obj => some obj
        | none => init := by
  intro objects
  induction objects with
  | nil => intro init; rfl
  | cons a l ih =>
    intro init
    rw [List.foldl_cons, ih]
    rw [List.reverse_cons, List.find?_append]
    cases h : l.reverse.find? (inPickRadius mx my) <;>
      cases h2 : inPickRadius mx my a <;>
        simp [h2, Option.or]

/-- C1 counterexample: with the pointer at the origin and two objects both
inside the 20 px radius, the draw-loop resolver returns the second (last)
object, while the claim demands the first. -/
theorem hover_resolver_first_counterexample :
    hoverResolve 0 0 [⟨1, Category.Debris, 0, 0, 0, 0⟩, ⟨2, Category.Debris, 1, 0, 0, 0⟩] =
      some ⟨2, Category.Debris, 1, 0, 0, 0⟩ ∧
    specHoverFirst 0 0 [⟨1, Category.Debris, 0, 0, 0, 0⟩, ⟨2, Category.Debris, 1, 0, 0, 0⟩] =
      some ⟨1, Category.Debris, 0, 0, 0, 0⟩ ∧
    (⟨2, Category.Debris, 1, 0, 0, 0⟩ : DebrisObject) ≠ ⟨1, Category.Debris, 0, 0, 0, 0⟩ := by
  refine ⟨?_, ?_, ?_⟩
  · norm_num [hoverResolve, inPickRadius, dist2]
  · norm_num [specHoverFirst, inPickRadius, dist2]
  · simp

/-- C1 (amended): the resolver returns the last object in iteration order
whose screen position is within the 20 px pick radius of the pointer
(each later match overwrites the earlier one), and none exactly when no
object is within the radius. -/
theorem hover_resolver_last_match :
    ∀ (mx my : ℚ) (objects : List DebrisObject),
      hoverResolve mx my objects = objects.reverse.find? (inPickRadius mx my) ∧
      (hoverResolve mx my objects = none ↔
        ∀ obj ∈ objects, ¬ dist2 mx my obj.x obj.y < 400) := by
  intro mx my objects
  have h1 : hoverResolve mx my objects = objects.reverse.find? (inPickRadius mx my) := by
    have h : hoverResolve mx my objects =
        match objects.reverse.find? (inPickRadius mx my) with
        | some obj => some obj
        | none => none := hoverResolve_foldl mx my objects none
    rw [h]
    cases objects.reverse.find? (inPickRadius mx my) <;> rfl
  refine ⟨h1, ?_⟩
  rw [h1]
  simp [List.find?_eq_none, List.mem_reverse, inPickRadius]


lemma jsMod_nonneg_lt (a b : ℝ) (ha : 0 ≤ a) (hb : 0 < b) :
    0 ≤ jsMod a b ∧ jsMod a b < b := by
  unfold jsMod jsTrunc
  rw [if_pos (div_nonneg ha hb.le)]
  have h1 : (⌊a / b⌋ : ℝ) ≤ a / b := Int.floor_le _
  have h2 : a / b < ⌊a / b⌋ + 1 := Int.lt_floor_add_one _
  have hab : b * (a / b) = a := by
    field_simp
  have h3 : b * (⌊a / b⌋ : ℝ) ≤ a := by
    calc b * (⌊a / b⌋ : ℝ) ≤ b * (a / b) := by
          exact mul_le_mul_of_nonneg_left h1 hb.le
      _ = a := hab
  have h4 : a < b * (⌊a / b⌋ : ℝ) + b := by
    calc a = b * (a / b) := hab.symm
      _ < b * ((⌊a / b⌋ : ℝ) + 1) := by
          exact mul_lt_mul_of_pos_left h2 hb
      _ = b * (⌊a / b⌋ : ℝ) + b := by ring
  constructor
  · linarith
  · linarith

/-- C4: the fallback propagation is exactly the spec formula —
`t = timestamp_seconds × 0.001 × speedMultiplier`,
`lat = sin(t + phase) × 50 × inclinationFactor`,
`lon = ((t × 2.5 + phase) mod 2π) × (180/π) − 180` with the per-category
(1.3, 1.8) / (0.7, 0.6) / (1, 1) table — and its result depends only on
(catalog id, category, timestamp), identically on repeated calls. -/
theorem fallback_formula :
    ∀ (noradId : ℕ) (category : Category) (timeMs : ℝ),
      calculatePositionFallback noradId category timeMs =
        specFallback noradId category (timeMs / 1000) ∧
      (∀ (noradId2 : ℕ) (category2 : Category) (timeMs2 : ℝ),
        noradId = noradId2 → category = category2 → timeMs = timeMs2 →
        calculatePositionFallback noradId category timeMs =
          calculatePositionFallback noradId2 category2 timeMs2) := by
  intro nid c tms
  constructor
  · rfl
  · intro nid2 c2 tms2 h1 h2 h3
    subst h1
    subst h2
    subst h3
    rfl

/-- Witness for C4 at catalog id 1, category Debris, timestamp 0. -/
theorem fallback_formula_witness :
    calculatePositionFallback 1 Category.Debris 0 =
      specFallback 1 Category.Debris (0 / 1000) ∧
    calculatePositionFallback 1 Category.Debris 0 =
      calculatePositionFallback 1 Category.Debris 0 :=
  ⟨(fallback_formula 1 Category.Debris 0).1,
   (fallback_formula 1 Category.Debris 0).2 1 Category.Debris 0 rfl rfl rfl⟩

/-- C9: for every catalog id, category and nonnegative timestamp the
fallback propagation stays in range: −90 ≤ lat ≤ 90 (since
50 × inclinationFactor ≤ 90) and −180 ≤ lon < 180 (by the mod-2π
reduction). -/
theorem fallback_in_range :
    ∀ (noradId : ℕ) (category : Category) (timeMs : ℝ), 0 ≤ timeMs →
      -90 ≤ (calculatePositionFallback noradId category timeMs).1 ∧
      (calculatePositionFallback noradId category timeMs).1 ≤ 90 ∧
      -180 ≤ (calculatePositionFallback noradId category timeMs).2 ∧
      (calculatePositionFallback noradId category timeMs).2 < 180 := by
  intro nid c tms htms
  have hfst : (calculatePositionFallback nid c tms).1 =
      Real.sin (tms / 1000 * 0.001 * speedMultiplier c +
        ((nid % 360 : ℕ) : ℝ) * (Real.pi / 180)) * 50 * inclinationFactor c := rfl
  have hsnd : (calculatePositionFallback nid c tms).2 =
      jsMod (tms / 1000 * 0.001 * speedMultiplier c * 2.5 +
        ((nid % 360 : ℕ) : ℝ) * (Real.pi / 180)) (2 * Real.pi) * (180 / Real.pi) - 180 := rfl
  have hpi : (0 : ℝ) < Real.pi := Real.pi_pos
  have hincl0 : 0 ≤ inclinationFactor c := by
    unfold inclinationFactor
    split_ifs <;> norm_num
  have hincl90 : 50 * inclinationFactor c ≤ 90 := by
    unfold inclinationFactor
    split_ifs <;> norm_num
  have hsm0 : 0 ≤ speedMultiplier c := by
    unfold speedMultiplier
    split_ifs <;> norm_num
  have hphase : 0 ≤ ((nid % 360 : ℕ) : ℝ) * (Real.pi / 180) := by positivity
  set x := tms / 1000 * 0.001 * speedMultiplier c +
    ((nid % 360 : ℕ) : ℝ) * (Real.pi / 180) with hx
  have hs1 : -1 ≤ Real.sin x := Real.neg_one_le_sin x
  have hs2 : Real.sin x ≤ 1 := Real.sin_le_one x
  have harg : 0 ≤ tms / 1000 * 0.001 * speedMultiplier c * 2.5 +
      ((nid % 360 : ℕ) : ℝ) * (Real.pi / 180) := by
    have h0 : 0 ≤ tms / 1000 * 0.001 * speedMultiplier c * 2.5 := by positivity
    linarith
  have hm := jsMod_nonneg_lt _ (2 * Real.pi) harg (by positivity)
  have h180 : (0 : ℝ) < 180 / Real.pi := by positivity
  refine ⟨?_, ?_, ?_, ?_⟩
  · rw [hfst]
    nlinarith [mul_nonneg (by linarith : (0:ℝ) ≤ Real.sin x + 1) hincl0]
  · rw [hfst]
    nlinarith [mul_nonneg (by linarith : (0:ℝ) ≤ 1 - Real.sin x) hincl0]
  · rw [hsnd]
    have h5 : 0 ≤ jsMod (tms / 1000 * 0.001 * speedMultiplier c * 2.5 +
        ((nid % 360 : ℕ) : ℝ) * (Real.pi / 180)) (2 * Real.pi) * (180 / Real.pi) :=
      mul_nonneg hm.1 h180.le
    linarith
  · rw [hsnd]
    have h6 : jsMod (tms / 1000 * 0.001 * speedMultiplier c * 2.5 +
        ((nid % 360 : ℕ) : ℝ) * (Real.pi / 180)) (2 * Real.pi) * (180 / Real.pi) <
        2 * Real.pi * (180 / Real.pi) :=
      mul_lt_mul_of_pos_right hm.2 h180
    have h7 : 2 * Real.pi * (180 / Real.pi) = 360 := by
      field_simp
      ring
    linarith

/-- Witness for C9 at catalog id 1, category Debris, timestamp 0. -/
theorem fallback_in_range_witness :
    -90 ≤ (calculatePositionFallback 1 Category.Debris 0).1 ∧
    (calculatePositionFallback 1 Category.Debris 0).1 ≤ 90 ∧
    -180 ≤ (calculatePositionFallback 1 Category.Debris 0).2 ∧
    (calculatePositionFallback 1 Category.Debris 0).2 < 180 :=
  fallback_in_range 1 Category.Debris 0 le_rfl
